import Mathlib

/-!
Verification of the worktree initialization-script runner
(`apps/server/src/services/init-script-service.ts`).

The service is embedded shallowly: the ambient JavaScript environment
(platform, file-system existence checks, the metadata record stored for the
invocation's (project, branch) key, the current timestamp) is a value of
`Env`; the spawned process's observable behaviour (output chunks and how it
terminates) is a value of `ProcBehavior`; and `runInitScript` produces the
ordered trace of externally visible actions (metadata reads and writes,
published events, the process spawn) that one invocation performs.

The metadata store itself (`../lib/worktree-metadata.js`) is not part of the
source tree; per the specification it is an external collaborator with
`read -> Metadata|absent` and `write -> ok|IOError`, so reads are modelled by
the `store` field of `Env` and write outcomes by the `writeResult` field,
whose `ok`/`IOError` result the runner receives as a value and discards,
exactly as the source awaits the call and ignores its result.
-/

namespace InitScript

/-- Node's `process.platform`, folded to the two cases the source
distinguishes: `win32` versus every Unix-like platform. -/
inductive Platform where
  | win32
  | posix
deriving DecidableEq, Repr

/-- The `initScriptStatus` values the runner writes. -/
inductive InitStatus where
  | running
  | success
  | failed
deriving DecidableEq, Repr

/-- A persisted worktree metadata record. Fields that a JavaScript record may
lack (`undefined`) are `Option`s; the runner itself always writes `branch`,
`createdAt`, `initScriptRan` and `initScriptStatus`. -/
structure WorktreeMetadata where
  branch : String
  createdAt : Option String
  pr : Option String
  initScriptRan : Option Bool
  initScriptStatus : Option InitStatus
  initScriptError : Option String
deriving DecidableEq, Repr

/-- JavaScript `x || d` on an optional string `x`: the empty string is falsy,
so it falls through to the default, as does an absent value. -/
def jsOrElse (x : Option String) (d : String) : String :=
  match x with
  | some s => if s = "" then d else s
  | none => d

/-- `metadata?.createdAt` on an optional record. -/
def metaCreatedAt (m : Option WorktreeMetadata) : Option String :=
  m.bind (·.createdAt)

/-- `metadata?.pr` on an optional record. -/
def metaPr (m : Option WorktreeMetadata) : Option String :=
  m.bind (·.pr)

/-- The ambient environment of one invocation: platform, `fs.existsSync`,
the metadata record currently stored for the invocation's (project, branch)
key, the timestamp `new Date().toISOString()` yields, the two Windows
environment variables the Git Bash search reads, and the outcome the metadata
store's `write` returns (`ok` or an `IOError` message). -/
structure Env where
  platform : Platform
  fsExists : String → Bool
  store : Option WorktreeMetadata
  now : String
  localAppData : Option String
  userProfile : Option String
  writeResult : WorktreeMetadata → Except String Unit

/-- Result of the shell resolver: `{ shell, args }` in the source. -/
structure ShellCommand where
  shell : String
  args : List String
deriving DecidableEq, Repr

/-- `path.join` on Windows, with the backslash separator. -/
def winPathJoin (parts : List String) : String :=
  String.intercalate "\\" parts

/-- `GIT_BASH_PATHS`: the fixed candidate list of Git Bash installation
paths, two of which depend on `process.env.LOCALAPPDATA || ''` and
`process.env.USERPROFILE || ''`. -/
def gitBashPaths (localAppData userProfile : Option String) : List String :=
  [ "C:\\Program Files\\Git\\bin\\bash.exe"
  , "C:\\Program Files (x86)\\Git\\bin\\bash.exe"
  , winPathJoin [jsOrElse localAppData "", "Programs", "Git", "bin", "bash.exe"]
  , winPathJoin [jsOrElse userProfile "", "scoop", "apps", "git", "current", "bin", "bash.exe"] ]

/-- `findGitBash`: `null` off Windows, otherwise the first candidate path
that exists on disk. -/
def findGitBash (env : Env) : Option String :=
  match env.platform with
  | Platform.posix => none
  | Platform.win32 =>
      (gitBashPaths env.localAppData env.userProfile).find? env.fsExists

/-- `getShellCommand`: Git Bash on Windows; on Unix-like systems
`/bin/bash` if it exists, else `/bin/sh` if it exists, else `null`. -/
def getShellCommand (env : Env) : Option ShellCommand :=
  match env.platform with
  | Platform.win32 =>
      match findGitBash env with
      | none => none
      | some gitBash => some ⟨gitBash, []⟩
  | Platform.posix =>
      if env.fsExists "/bin/bash" then some ⟨"/bin/bash", []⟩
      else if env.fsExists "/bin/sh" then some ⟨"/bin/sh", []⟩
      else none

/-- `InitScriptOptions` (the event emitter is represented by the trace). -/
structure InitScriptOptions where
  projectPath : String
  worktreePath : String
  branch : String
deriving DecidableEq, Repr

/-- `getInitScriptPath`: `path.join(projectPath, '.automaker',
'worktree-init.sh')`, modelled as slash concatenation. -/
def getInitScriptPath (projectPath : String) : String :=
  projectPath ++ "/.automaker/worktree-init.sh"

/-- `hasInitScriptRun`: reads the record and tests
`metadata?.initScriptRan === true`. -/
def hasInitScriptRun (store : Option WorktreeMetadata) : Bool :=
  match store with
  | some m => m.initScriptRan == some true
  | none => false

/-- Origin stream of an output chunk. -/
inductive StreamKind where
  | stdout
  | stderr
deriving DecidableEq, Repr

/-- Events published on the emitter, with their payload fields. In the
completion event `exitCode` is `some c` when the payload carries an
`exitCode` field with value `c` (`c` itself is `none` for JavaScript
`null`), and `none` when the field is absent. -/
inductive Event where
  | initStarted (projectPath worktreePath branch : String)
  | initOutput (projectPath branch : String) (kind : StreamKind) (content : String)
  | initCompleted (projectPath worktreePath branch : String)
      (success : Bool) (exitCode : Option (Option Int)) (error : Option String)
deriving DecidableEq, Repr

/-- How the spawned child process ends: the `'exit'` callback with a code
that is an integer or `null`, or the `'error'` callback with an error whose
`message` is carried. -/
inductive ProcEnding where
  | exited (code : Option Int)
  | errored (message : String)
deriving DecidableEq, Repr

/-- Observable behaviour of the spawned process: the output chunks its two
streams deliver, in arrival order, and how it ends. -/
structure ProcBehavior where
  outputs : List (StreamKind × String)
  ending : ProcEnding
deriving DecidableEq, Repr

/-- One externally visible action of the runner, in trace order. `procEnd`
marks the moment the child process ends, after which its `'exit'`/`'error'`
callback runs. -/
inductive Action where
  | readMeta
  | writeMeta (m : WorktreeMetadata)
  | emit (e : Event)
  | spawnProcess (shell : String) (args : List String) (cwd : String)
      (envAdditions : List (String × String))
  | procEnd
deriving DecidableEq, Repr

/-- JavaScript string interpolation of an exit code: `null` prints as
`"null"`, an integer in decimal. -/
def exitCodeText (code : Option Int) : String :=
  match code with
  | some n => toString n
  | none => "null"

/-- The platform-specific diagnostic when no shell is resolvable. -/
def noShellError : Platform → String
  | Platform.win32 => "Git Bash not found. Please install Git for Windows to run init scripts."
  | Platform.posix => "No shell found (/bin/bash or /bin/sh)"

/-- The environment additions layered over the inherited environment at
spawn time. -/
def spawnEnvAdditions (opts : InitScriptOptions) : List (String × String) :=
  [ ("AUTOMAKER_PROJECT_PATH", opts.projectPath)
  , ("AUTOMAKER_WORKTREE_PATH", opts.worktreePath)
  , ("AUTOMAKER_BRANCH", opts.branch)
  , ("FORCE_COLOR", "1")
  , ("npm_config_color", "always")
  , ("CLICOLOR_FORCE", "1")
  , ("GIT_TERMINAL_PROMPT", "0") ]

/-- `await writeWorktreeMetadata(...)`: the store's `ok`/`IOError` result
comes back as a value and the source discards it, continuing identically in
both cases; the trace records the attempted write. -/
def awaitWrite (env : Env) (m : WorktreeMetadata) : List Action :=
  match env.writeResult m with
  | Except.ok _ => [Action.writeMeta m]
  | Except.error _ => [Action.writeMeta m]

/-- The record the pre-flight no-shell failure writes (lines 129–135 of the
source): a fresh record built without reading the store — `createdAt` is the
current time and `pr` is not carried over. -/
def preflightFailureRecord (env : Env) (opts : InitScriptOptions) : WorktreeMetadata :=
  { branch := opts.branch
  , createdAt := some env.now
  , pr := none
  , initScriptRan := some true
  , initScriptStatus := some InitStatus.failed
  , initScriptError := some (noShellError env.platform) }

/-- The record the running write stores (lines 150–157): `createdAt` is the
existing one, defaulting to now when falsy, and `pr` is carried over from
the re-read record. -/
def runningRecord (env : Env) (opts : InitScriptOptions) : WorktreeMetadata :=
  { branch := opts.branch
  , createdAt := some (jsOrElse (metaCreatedAt env.store) env.now)
  , pr := metaPr env.store
  , initScriptRan := some false
  , initScriptStatus := some InitStatus.running
  , initScriptError := none }

/-- The terminal record the `'exit'` callback writes (lines 215–223), built
from the record re-read at callback time (`storeAtEnd`). -/
def exitRecord (env : Env) (opts : InitScriptOptions)
    (storeAtEnd : Option WorktreeMetadata) (code : Option Int) : WorktreeMetadata :=
  let success : Bool := code = some 0
  { branch := opts.branch
  , createdAt := some (jsOrElse (metaCreatedAt storeAtEnd) env.now)
  , pr := metaPr storeAtEnd
  , initScriptRan := some true
  , initScriptStatus := some (if success then InitStatus.success else InitStatus.failed)
  , initScriptError :=
      if success then none else some ("Exit code: " ++ exitCodeText code) }

/-- The terminal record the `'error'` callback writes (lines 239–247). -/
def errorRecord (env : Env) (opts : InitScriptOptions)
    (storeAtEnd : Option WorktreeMetadata) (message : String) : WorktreeMetadata :=
  { branch := opts.branch
  , createdAt := some (jsOrElse (metaCreatedAt storeAtEnd) env.now)
  , pr := metaPr storeAtEnd
  , initScriptRan := some true
  , initScriptStatus := some InitStatus.failed
  , initScriptError := some message }

/-- The actions of the callback that runs once the process ends: re-read the
record, write the terminal record, publish the completion event. On exit the
event carries the success flag and an `exitCode` field; on a spawn-level
error it carries `success: false` and an `error` field. -/
def endingActions (env : Env) (opts : InitScriptOptions)
    (storeAtEnd : Option WorktreeMetadata) : ProcEnding → List Action
  | ProcEnding.exited code =>
      [Action.readMeta] ++ awaitWrite env (exitRecord env opts storeAtEnd code) ++
        [Action.emit (Event.initCompleted opts.projectPath opts.worktreePath
          opts.branch (code = some 0) (some code) none)]
  | ProcEnding.errored message =>
      [Action.readMeta] ++ awaitWrite env (errorRecord env opts storeAtEnd message) ++
        [Action.emit (Event.initCompleted opts.projectPath opts.worktreePath
          opts.branch false none (some message))]

/-- The trace from the running write onward, once a shell has been resolved
(lines 149–257): re-read the record, write the running record, publish the
started event, spawn the shell on the script with the worktree as working
directory, publish one output event per arriving chunk, then run the ending
callback against the store as left by the running write. -/
def spawnPhase (env : Env) (opts : InitScriptOptions) (proc : ProcBehavior)
    (shellCmd : ShellCommand) : List Action :=
  let running := runningRecord env opts
  [Action.readMeta] ++ awaitWrite env running ++
    [ Action.emit (Event.initStarted opts.projectPath opts.worktreePath opts.branch)
    , Action.spawnProcess shellCmd.shell
        (shellCmd.args ++ [getInitScriptPath opts.projectPath])
        opts.worktreePath (spawnEnvAdditions opts) ] ++
    (proc.outputs.map fun o =>
      Action.emit (Event.initOutput opts.projectPath opts.branch o.1 o.2)) ++
    [Action.procEnd] ++ endingActions env opts (some running) proc.ending

/-- `runInitScript`, as the trace of one full invocation, including the
actions its `'exit'`/`'error'` callback later performs. The result is an
`Except` whose `error` case would represent an exception escaping to the
caller; no path constructs it. -/
def runInitScript (env : Env) (opts : InitScriptOptions) (proc : ProcBehavior) :
    Except String (List Action) :=
  let scriptPath := getInitScriptPath opts.projectPath
  if env.fsExists scriptPath then
    -- `hasInitScriptRun` performs the metadata read
    if hasInitScriptRun env.store then
      Except.ok [Action.readMeta]
    else
      match getShellCommand env with
      | none =>
          Except.ok ([Action.readMeta] ++
            awaitWrite env (preflightFailureRecord env opts) ++
            [Action.emit (Event.initCompleted opts.projectPath opts.worktreePath
              opts.branch false none (some (noShellError env.platform)))])
      | some shellCmd =>
          Except.ok (Action.readMeta :: spawnPhase env opts proc shellCmd)
  else
    Except.ok []

/-- The trace of one invocation (total: no path of `runInitScript` raises). -/
def runTrace (env : Env) (opts : InitScriptOptions) (proc : ProcBehavior) :
    List Action :=
  match runInitScript env opts proc with
  | Except.ok t => t
  | Except.error _ => []

/-- The metadata records written along a trace, in order. -/
def writesOf (t : List Action) : List WorktreeMetadata :=
  t.filterMap fun a =>
    match a with
    | Action.writeMeta m => some m
    | _ => none

/-- The completion-event payloads published along a trace, in order:
(success flag, optional `exitCode` field, optional `error` field). -/
def completionsOf (t : List Action) : List (Bool × Option (Option Int) × Option String) :=
  t.filterMap fun a =>
    match a with
    | Action.emit (Event.initCompleted _ _ _ succ exitCode err) => some (succ, exitCode, err)
    | _ => none

/-- The output-event payloads published along a trace, in order. -/
def outputEmitsOf (t : List Action) : List (StreamKind × String) :=
  t.filterMap fun a =>
    match a with
    | Action.emit (Event.initOutput _ _ kind content) => some (kind, content)
    | _ => none

/-- The spawn actions of a trace. -/
def spawnsOf (t : List Action) : List Action :=
  t.filter fun a =>
    match a with
    | Action.spawnProcess _ _ _ _ => true
    | _ => false

/-- The emitted events of a trace. -/
def emitsOf (t : List Action) : List Event :=
  t.filterMap fun a =>
    match a with
    | Action.emit e => some e
    | _ => none

/-- The metadata reads of a trace. -/
def readsOf (t : List Action) : List Action :=
  t.filter fun a =>
    match a with
    | Action.readMeta => true
    | _ => false

/-- A status is terminal when it is `success` or `failed`. -/
def isTerminalStatus : Option InitStatus → Bool
  | some InitStatus.success => true
  | some InitStatus.failed => true
  | _ => false

/-- The terminal metadata writes of a trace. -/
def terminalWritesOf (t : List Action) : List WorktreeMetadata :=
  (writesOf t).filter fun m => isTerminalStatus m.initScriptStatus

/- Concrete sample data used to instantiate the theorems. -/

/-- A pre-existing record left by an interrupted run: `pr` set, `createdAt`
set, not terminal. -/
def sampleStaleRecord : WorktreeMetadata :=
  { branch := "feature-x"
  , createdAt := some "2024-01-01T00:00:00.000Z"
  , pr := some "123"
  , initScriptRan := some false
  , initScriptStatus := some InitStatus.running
  , initScriptError := none }

/-- A terminal record: the script already ran for this branch. -/
def sampleTerminalRecord : WorktreeMetadata :=
  { branch := "feature-x"
  , createdAt := some "2024-01-01T00:00:00.000Z"
  , pr := some "123"
  , initScriptRan := some true
  , initScriptStatus := some InitStatus.success
  , initScriptError := none }

/-- Options of the sample invocation. -/
def sampleOpts : InitScriptOptions :=
  { projectPath := "/p", worktreePath := "/w", branch := "feature-x" }

/-- A POSIX environment where the script file and `/bin/bash` exist and the
stored record is the stale one. -/
def sampleEnvBash : Env :=
  { platform := Platform.posix
  , fsExists := fun s => s == "/p/.automaker/worktree-init.sh" || s == "/bin/bash"
  , store := some sampleStaleRecord
  , now := "2024-02-02T00:00:00.000Z"
  , localAppData := none
  , userProfile := none
  , writeResult := fun _ => Except.ok () }

/-- Like `sampleEnvBash` but `/bin/bash` is absent and `/bin/sh` exists. -/
def sampleEnvSh : Env :=
  { sampleEnvBash with
    fsExists := fun s => s == "/p/.automaker/worktree-init.sh" || s == "/bin/sh" }

/-- Like `sampleEnvBash` but no shell exists at all. -/
def sampleEnvNoShell : Env :=
  { sampleEnvBash with
    fsExists := fun s => s == "/p/.automaker/worktree-init.sh" }

/-- Like `sampleEnvBash` but the stored record is terminal. -/
def sampleEnvDone : Env :=
  { sampleEnvBash with store := some sampleTerminalRecord }

/-- An environment where no file exists at all (in particular no script). -/
def sampleEnvNoScript : Env :=
  { sampleEnvBash with fsExists := fun _ => false }

/-- A quiet process run that exits cleanly. -/
def sampleProcOk : ProcBehavior :=
  { outputs := [(StreamKind.stdout, "hello\n")], ending := ProcEnding.exited (some 0) }

/- Helper lemmas. -/

@[simp]
lemma awaitWrite_eq (env : Env) (m : WorktreeMetadata) :
    awaitWrite env m = [Action.writeMeta m] := by
  unfold awaitWrite
  cases env.writeResult m <;> rfl

lemma runTrace_no_script (env : Env) (opts : InitScriptOptions) (proc : ProcBehavior)
    (h : env.fsExists (getInitScriptPath opts.projectPath) = false) :
    runTrace env opts proc = [] := by
  unfold runTrace runInitScript
  simp [h]

lemma runTrace_already_ran (env : Env) (opts : InitScriptOptions) (proc : ProcBehavior)
    (h1 : env.fsExists (getInitScriptPath opts.projectPath) = true)
    (h2 : hasInitScriptRun env.store = true) :
    runTrace env opts proc = [Action.readMeta] := by
  unfold runTrace runInitScript
  simp [h1, h2]

lemma runTrace_no_shell (env : Env) (opts : InitScriptOptions) (proc : ProcBehavior)
    (h1 : env.fsExists (getInitScriptPath opts.projectPath) = true)
    (h2 : hasInitScriptRun env.store = false)
    (h3 : getShellCommand env = none) :
    runTrace env opts proc =
      [ Action.readMeta
      , Action.writeMeta (preflightFailureRecord env opts)
      , Action.emit (Event.initCompleted opts.projectPath opts.worktreePath
          opts.branch false none (some (noShellError env.platform))) ] := by
  unfold runTrace runInitScript
  simp [h1, h2, h3, awaitWrite_eq]

lemma runTrace_spawn (env : Env) (opts : InitScriptOptions) (proc : ProcBehavior)
    (sc : ShellCommand)
    (h1 : env.fsExists (getInitScriptPath opts.projectPath) = true)
    (h2 : hasInitScriptRun env.store = false)
    (h3 : getShellCommand env = some sc) :
    runTrace env opts proc = Action.readMeta :: spawnPhase env opts proc sc := by
  unfold runTrace runInitScript
  simp [h1, h2, h3]

lemma spawnPhase_eq (env : Env) (opts : InitScriptOptions) (proc : ProcBehavior)
    (sc : ShellCommand) :
    spawnPhase env opts proc sc =
      [ Action.readMeta
      , Action.writeMeta (runningRecord env opts)
      , Action.emit (Event.initStarted opts.projectPath opts.worktreePath opts.branch)
      , Action.spawnProcess sc.shell (sc.args ++ [getInitScriptPath opts.projectPath])
          opts.worktreePath (spawnEnvAdditions opts) ] ++
      (proc.outputs.map fun o =>
        Action.emit (Event.initOutput opts.projectPath opts.branch o.1 o.2)) ++
      [Action.procEnd] ++ endingActions env opts (some (runningRecord env opts)) proc.ending := by
  unfold spawnPhase
  simp [awaitWrite_eq]

@[simp]
lemma endingActions_exited (env : Env) (opts : InitScriptOptions)
    (storeAtEnd : Option WorktreeMetadata) (code : Option Int) :
    endingActions env opts storeAtEnd (ProcEnding.exited code) =
      [ Action.readMeta
      , Action.writeMeta (exitRecord env opts storeAtEnd code)
      , Action.emit (Event.initCompleted opts.projectPath opts.worktreePath
          opts.branch (code = some 0) (some code) none) ] := by
  unfold endingActions
  simp [awaitWrite_eq]

@[simp]
lemma endingActions_errored (env : Env) (opts : InitScriptOptions)
    (storeAtEnd : Option WorktreeMetadata) (message : String) :
    endingActions env opts storeAtEnd (ProcEnding.errored message) =
      [ Action.readMeta
      , Action.writeMeta (errorRecord env opts storeAtEnd message)
      , Action.emit (Event.initCompleted opts.projectPath opts.worktreePath
          opts.branch false none (some message)) ] := by
  unfold endingActions
  simp [awaitWrite_eq]

lemma runTrace_cases (env : Env) (opts : InitScriptOptions) (proc : ProcBehavior) :
    runTrace env opts proc = [] ∨
    runTrace env opts proc = [Action.readMeta] ∨
    (getShellCommand env = none ∧
      runTrace env opts proc =
        [ Action.readMeta
        , Action.writeMeta (preflightFailureRecord env opts)
        , Action.emit (Event.initCompleted opts.projectPath opts.worktreePath
            opts.branch false none (some (noShellError env.platform))) ]) ∨
    (∃ sc, getShellCommand env = some sc ∧
      runTrace env opts proc = Action.readMeta :: spawnPhase env opts proc sc) := by
  by_cases h1 : env.fsExists (getInitScriptPath opts.projectPath) = true
  · by_cases h2 : hasInitScriptRun env.store = true
    · exact Or.inr (Or.inl (runTrace_already_ran env opts proc h1 h2))
    · have h2f : hasInitScriptRun env.store = false := by
        simpa using h2
      cases h3 : getShellCommand env with
      | none =>
          exact Or.inr (Or.inr (Or.inl ⟨rfl, runTrace_no_shell env opts proc h1 h2f h3⟩))
      | some sc =>
          exact Or.inr (Or.inr (Or.inr ⟨sc, rfl, runTrace_spawn env opts proc sc h1 h2f h3⟩))
  · have h1f : env.fsExists (getInitScriptPath opts.projectPath) = false := by
      simpa using h1
    exact Or.inl (runTrace_no_script env opts proc h1f)

@[simp]
lemma writesOf_outputActs (pp b : String) (outs : List (StreamKind × String)) :
    writesOf (outs.map fun o => Action.emit (Event.initOutput pp b o.1 o.2)) = [] := by
  unfold writesOf
  rw [List.filterMap_map]
  exact List.filterMap_eq_nil_iff.mpr fun a _ => rfl

@[simp]
lemma completionsOf_outputActs (pp b : String) (outs : List (StreamKind × String)) :
    completionsOf (outs.map fun o => Action.emit (Event.initOutput pp b o.1 o.2)) = [] := by
  unfold completionsOf
  rw [List.filterMap_map]
  exact List.filterMap_eq_nil_iff.mpr fun a _ => rfl

@[simp]
lemma writesOf_append (a b : List Action) :
    writesOf (a ++ b) = writesOf a ++ writesOf b :=
  List.filterMap_append a b _

@[simp]
lemma writesOf_nil : writesOf [] = [] := rfl

@[simp]
lemma writesOf_cons_readMeta (t : List Action) :
    writesOf (Action.readMeta :: t) = writesOf t := rfl

@[simp]
lemma writesOf_cons_writeMeta (m : WorktreeMetadata) (t : List Action) :
    writesOf (Action.writeMeta m :: t) = m :: writesOf t := rfl

@[simp]
lemma writesOf_cons_emit (e : Event) (t : List Action) :
    writesOf (Action.emit e :: t) = writesOf t := rfl

@[simp]
lemma writesOf_cons_spawn (sh : String) (args : List String) (cwd : String)
    (envAdds : List (String × String)) (t : List Action) :
    writesOf (Action.spawnProcess sh args cwd envAdds :: t) = writesOf t := rfl

@[simp]
lemma writesOf_cons_procEnd (t : List Action) :
    writesOf (Action.procEnd :: t) = writesOf t := rfl

@[simp]
lemma completionsOf_nil : completionsOf [] = [] := rfl

@[simp]
lemma completionsOf_cons_readMeta (t : List Action) :
    completionsOf (Action.readMeta :: t) = completionsOf t := rfl

@[simp]
lemma completionsOf_cons_writeMeta (m : WorktreeMetadata) (t : List Action) :
    completionsOf (Action.writeMeta m :: t) = completionsOf t := rfl

@[simp]
lemma completionsOf_cons_started (pp wp b : String) (t : List Action) :
    completionsOf (Action.emit (Event.initStarted pp wp b) :: t) = completionsOf t := rfl

@[simp]
lemma completionsOf_cons_output (pp b : String) (k : StreamKind) (c : String)
    (t : List Action) :
    completionsOf (Action.emit (Event.initOutput pp b k c) :: t) = completionsOf t := rfl

@[simp]
lemma completionsOf_cons_completed (pp wp b : String) (succ : Bool)
    (exitCode : Option (Option Int)) (err : Option String) (t : List Action) :
    completionsOf (Action.emit (Event.initCompleted pp wp b succ exitCode err) :: t) =
      (succ, exitCode, err) :: completionsOf t := rfl

@[simp]
lemma completionsOf_cons_spawn (sh : String) (args : List String) (cwd : String)
    (envAdds : List (String × String)) (t : List Action) :
    completionsOf (Action.spawnProcess sh args cwd envAdds :: t) = completionsOf t := rfl

@[simp]
lemma completionsOf_cons_procEnd (t : List Action) :
    completionsOf (Action.procEnd :: t) = completionsOf t := rfl

@[simp]
lemma completionsOf_append (a b : List Action) :
    completionsOf (a ++ b) = completionsOf a ++ completionsOf b :=
  List.filterMap_append a b _

@[simp]
lemma outputEmitsOf_append (a b : List Action) :
    outputEmitsOf (a ++ b) = outputEmitsOf a ++ outputEmitsOf b :=
  List.filterMap_append a b _

/- Claim theorems. -/

/-- Claim C7: for every (project, branch), if the script file
`<projectPath>/.automaker/worktree-init.sh` does not exist, `run` returns
immediately with no metadata read or write, no process spawn, and no
published event. -/
theorem absent_script_is_silent_noop
    (env : Env) (opts : InitScriptOptions) (proc : ProcBehavior)
    (h : env.fsExists (getInitScriptPath opts.projectPath) = false) :
    readsOf (runTrace env opts proc) = [] ∧
    writesOf (runTrace env opts proc) = [] ∧
    spawnsOf (runTrace env opts proc) = [] ∧
    emitsOf (runTrace env opts proc) = [] := by
  simp [runTrace_no_script env opts proc h, readsOf, writesOf, spawnsOf, emitsOf]

/-- Witness for C7 at a concrete environment with no script file. -/
theorem absent_script_is_silent_noop_witness :
    readsOf (runTrace sampleEnvNoScript sampleOpts sampleProcOk) = [] ∧
    writesOf (runTrace sampleEnvNoScript sampleOpts sampleProcOk) = [] ∧
    spawnsOf (runTrace sampleEnvNoScript sampleOpts sampleProcOk) = [] ∧
    emitsOf (runTrace sampleEnvNoScript sampleOpts sampleProcOk) = [] :=
  absent_script_is_silent_noop sampleEnvNoScript sampleOpts sampleProcOk (by decide)

/-- Claim C1: once the stored record for the (project, branch) key has
`initScriptRan === true`, any further invocation of `run` with the script
file present spawns nothing, writes no metadata, and publishes no event. -/
theorem run_after_terminal_record_is_noop
    (env : Env) (opts : InitScriptOptions) (proc : ProcBehavior)
    (m0 : WorktreeMetadata)
    (hscript : env.fsExists (getInitScriptPath opts.projectPath) = true)
    (hm : env.store = some m0)
    (hr : m0.initScriptRan = some true) :
    spawnsOf (runTrace env opts proc) = [] ∧
    writesOf (runTrace env opts proc) = [] ∧
    emitsOf (runTrace env opts proc) = [] := by
  have hgate : hasInitScriptRun env.store = true := by
    rw [hm]
    simp [hasInitScriptRun, hr]
  simp [runTrace_already_ran env opts proc hscript hgate, spawnsOf, writesOf, emitsOf]

/-- Witness for C1 at a concrete environment whose record is terminal. -/
theorem run_after_terminal_record_is_noop_witness :
    spawnsOf (runTrace sampleEnvDone sampleOpts sampleProcOk) = [] ∧
    writesOf (runTrace sampleEnvDone sampleOpts sampleProcOk) = [] ∧
    emitsOf (runTrace sampleEnvDone sampleOpts sampleProcOk) = [] :=
  run_after_terminal_record_is_noop sampleEnvDone sampleOpts sampleProcOk
    sampleTerminalRecord (by decide) rfl (by decide)

/-- Claim C4: for every environment — including every behaviour of the
metadata store's write, whose `ok`/`IOError` result the runner receives and
discards — and every process behaviour, `runInitScript` returns a trace and
never propagates an exception to its caller. -/
theorem runInitScript_never_raises
    (env : Env) (opts : InitScriptOptions) (proc : ProcBehavior) :
    ∃ t, runInitScript env opts proc = Except.ok t := by
  unfold runInitScript
  dsimp only
  split
  · split
    · exact ⟨_, rfl⟩
    · split <;> exact ⟨_, rfl⟩
  · exact ⟨_, rfl⟩

/-- Claim C6: on POSIX platforms the shell resolver returns `/bin/bash` when
it exists, else `/bin/sh` when it exists, else nothing; and when it returns
nothing, `run` records a pre-flight failed terminal record and publishes a
completion event with `success: false`, without ever spawning a process. -/
theorem posix_shell_resolution_and_preflight_failure
    (env : Env) (opts : InitScriptOptions) (proc : ProcBehavior)
    (hplat : env.platform = Platform.posix)
    (hscript : env.fsExists (getInitScriptPath opts.projectPath) = true)
    (hran : hasInitScriptRun env.store = false) :
    (env.fsExists "/bin/bash" = true →
       getShellCommand env = some ⟨"/bin/bash", []⟩) ∧
    (env.fsExists "/bin/bash" = false → env.fsExists "/bin/sh" = true →
       getShellCommand env = some ⟨"/bin/sh", []⟩) ∧
    (env.fsExists "/bin/bash" = false → env.fsExists "/bin/sh" = false →
       getShellCommand env = none ∧
       spawnsOf (runTrace env opts proc) = [] ∧
       writesOf (runTrace env opts proc) = [preflightFailureRecord env opts] ∧
       (preflightFailureRecord env opts).initScriptRan = some true ∧
       (preflightFailureRecord env opts).initScriptStatus = some InitStatus.failed ∧
       completionsOf (runTrace env opts proc) =
         [(false, none, some (noShellError Platform.posix))]) := by
  refine ⟨?_, ?_, ?_⟩
  · intro hb
    simp [getShellCommand, hplat, hb]
  · intro hb hs
    simp [getShellCommand, hplat, hb, hs]
  · intro hb hs
    have hnone : getShellCommand env = none := by
      simp [getShellCommand, hplat, hb, hs]
    have htr := runTrace_no_shell env opts proc hscript hran hnone
    refine ⟨hnone, ?_, ?_, rfl, rfl, ?_⟩
    · simp [htr, spawnsOf]
    · simp [htr, writesOf]
    · simp [htr, completionsOf, hplat]

/-- Witness for C6 at a concrete POSIX environment with neither shell. -/
theorem posix_shell_resolution_and_preflight_failure_witness :
    (sampleEnvNoShell.fsExists "/bin/bash" = true →
       getShellCommand sampleEnvNoShell = some ⟨"/bin/bash", []⟩) ∧
    (sampleEnvNoShell.fsExists "/bin/bash" = false →
       sampleEnvNoShell.fsExists "/bin/sh" = true →
       getShellCommand sampleEnvNoShell = some ⟨"/bin/sh", []⟩) ∧
    (sampleEnvNoShell.fsExists "/bin/bash" = false →
       sampleEnvNoShell.fsExists "/bin/sh" = false →
       getShellCommand sampleEnvNoShell = none ∧
       spawnsOf (runTrace sampleEnvNoShell sampleOpts sampleProcOk) = [] ∧
       writesOf (runTrace sampleEnvNoShell sampleOpts sampleProcOk) =
         [preflightFailureRecord sampleEnvNoShell sampleOpts] ∧
       (preflightFailureRecord sampleEnvNoShell sampleOpts).initScriptRan = some true ∧
       (preflightFailureRecord sampleEnvNoShell sampleOpts).initScriptStatus =
         some InitStatus.failed ∧
       completionsOf (runTrace sampleEnvNoShell sampleOpts sampleProcOk) =
         [(false, none, some (noShellError Platform.posix))]) :=
  posix_shell_resolution_and_preflight_failure sampleEnvNoShell sampleOpts sampleProcOk
    rfl (by decide) (by decide)

/-- Claim C9: the idempotency gate only blocks on terminal records — when the
stored record exists but its `initScriptRan` is not `true` (for example a
`running` record left by an interrupted invocation), `run` with the script
present and a shell resolvable writes the running record again and spawns
the script another time. -/
theorem nonterminal_record_reruns_lifecycle
    (env : Env) (opts : InitScriptOptions) (proc : ProcBehavior)
    (m0 : WorktreeMetadata) (sc : ShellCommand)
    (hscript : env.fsExists (getInitScriptPath opts.projectPath) = true)
    (hm : env.store = some m0)
    (hr : m0.initScriptRan ≠ some true)
    (hsh : getShellCommand env = some sc) :
    Action.writeMeta (runningRecord env opts) ∈ runTrace env opts proc ∧
    (runningRecord env opts).initScriptRan = some false ∧
    (runningRecord env opts).initScriptStatus = some InitStatus.running ∧
    Action.spawnProcess sc.shell (sc.args ++ [getInitScriptPath opts.projectPath])
      opts.worktreePath (spawnEnvAdditions opts) ∈ runTrace env opts proc := by
  have hgate : hasInitScriptRun env.store = false := by
    rw [hm]
    simpa [hasInitScriptRun] using hr
  rw [runTrace_spawn env opts proc sc hscript hgate hsh, spawnPhase_eq]
  refine ⟨?_, rfl, rfl, ?_⟩ <;> simp

/-- Witness for C9 at a concrete environment holding a stale running
record. -/
theorem nonterminal_record_reruns_lifecycle_witness :
    Action.writeMeta (runningRecord sampleEnvBash sampleOpts) ∈
      runTrace sampleEnvBash sampleOpts sampleProcOk ∧
    (runningRecord sampleEnvBash sampleOpts).initScriptRan = some false ∧
    (runningRecord sampleEnvBash sampleOpts).initScriptStatus =
      some InitStatus.running ∧
    Action.spawnProcess "/bin/bash" ([] ++ [getInitScriptPath sampleOpts.projectPath])
      sampleOpts.worktreePath (spawnEnvAdditions sampleOpts) ∈
      runTrace sampleEnvBash sampleOpts sampleProcOk :=
  nonterminal_record_reruns_lifecycle sampleEnvBash sampleOpts sampleProcOk
    sampleStaleRecord ⟨"/bin/bash", []⟩ (by decide) rfl (by decide) (by decide)

/-- Claim C3: on process exit, exit code `0` yields a terminal record with
status `success` and no error; any integer exit code `N ≠ 0` yields status
`failed` with error exactly `"Exit code: N"`; the completion event carries
the matching success flag and the exit code. -/
theorem exit_code_mapping
    (env : Env) (opts : InitScriptOptions) (outs : List (StreamKind × String))
    (code : Option Int) (sc : ShellCommand)
    (hscript : env.fsExists (getInitScriptPath opts.projectPath) = true)
    (hgate : hasInitScriptRun env.store = false)
    (hsh : getShellCommand env = some sc) :
    ∃ m, (writesOf (runTrace env opts ⟨outs, ProcEnding.exited code⟩)).getLast? = some m ∧
      m.initScriptRan = some true ∧
      (code = some 0 →
        m.initScriptStatus = some InitStatus.success ∧
        m.initScriptError = none ∧
        completionsOf (runTrace env opts ⟨outs, ProcEnding.exited code⟩) =
          [(true, some (some 0), none)]) ∧
      (∀ n : Int, code = some n → n ≠ 0 →
        m.initScriptStatus = some InitStatus.failed ∧
        m.initScriptError = some ("Exit code: " ++ toString n) ∧
        completionsOf (runTrace env opts ⟨outs, ProcEnding.exited code⟩) =
          [(false, some (some n), none)]) := by
  have htr := runTrace_spawn env opts ⟨outs, ProcEnding.exited code⟩ sc hscript hgate hsh
  rw [spawnPhase_eq] at htr
  rw [show (ProcBehavior.mk outs (ProcEnding.exited code)).ending =
        ProcEnding.exited code from rfl, endingActions_exited] at htr
  refine ⟨exitRecord env opts (some (runningRecord env opts)) code, ?_, rfl, ?_, ?_⟩
  · rw [htr]
    simp
  · intro h0
    subst h0
    refine ⟨rfl, rfl, ?_⟩
    rw [htr]
    simp
  · intro n hn hne
    subst hn
    have hne0 : ((some n : Option Int) = some 0) = False := by
      simp [hne]
    refine ⟨?_, ?_, ?_⟩
    · simp [exitRecord, hne0]
    · simp [exitRecord, hne0, exitCodeText]
    · rw [htr]
      simp [hne]

/-- Witness for C3: a concrete run whose script exits with code 7. -/
theorem exit_code_mapping_witness :
    ∃ m, (writesOf (runTrace sampleEnvBash sampleOpts
        ⟨[], ProcEnding.exited (some 7)⟩)).getLast? = some m ∧
      m.initScriptRan = some true ∧
      ((some 7 : Option Int) = some 0 →
        m.initScriptStatus = some InitStatus.success ∧
        m.initScriptError = none ∧
        completionsOf (runTrace sampleEnvBash sampleOpts
          ⟨[], ProcEnding.exited (some 7)⟩) = [(true, some (some 0), none)]) ∧
      (∀ n : Int, (some 7 : Option Int) = some n → n ≠ 0 →
        m.initScriptStatus = some InitStatus.failed ∧
        m.initScriptError = some ("Exit code: " ++ toString n) ∧
        completionsOf (runTrace sampleEnvBash sampleOpts
          ⟨[], ProcEnding.exited (some 7)⟩) = [(false, some (some n), none)]) :=
  exit_code_mapping sampleEnvBash sampleOpts [] (some 7) ⟨"/bin/bash", []⟩
    (by decide) (by decide) (by decide)

/-- Claim C10: when the process is killed by a signal the exit callback
receives a `null` code; the runner records a terminal failed record whose
error is the string `"Exit code: null"` and publishes a completion event
with `success: false` and a `null` `exitCode` field. -/
theorem null_exit_code_records_failure
    (env : Env) (opts : InitScriptOptions) (outs : List (StreamKind × String))
    (sc : ShellCommand)
    (hscript : env.fsExists (getInitScriptPath opts.projectPath) = true)
    (hgate : hasInitScriptRun env.store = false)
    (hsh : getShellCommand env = some sc) :
    ∃ m, (writesOf (runTrace env opts ⟨outs, ProcEnding.exited none⟩)).getLast? = some m ∧
      m.initScriptRan = some true ∧
      m.initScriptStatus = some InitStatus.failed ∧
      m.initScriptError = some "Exit code: null" ∧
      completionsOf (runTrace env opts ⟨outs, ProcEnding.exited none⟩) =
        [(false, some none, none)] := by
  have htr := runTrace_spawn env opts ⟨outs, ProcEnding.exited none⟩ sc hscript hgate hsh
  rw [spawnPhase_eq] at htr
  rw [show (ProcBehavior.mk outs (ProcEnding.exited none)).ending =
        ProcEnding.exited none from rfl, endingActions_exited] at htr
  refine ⟨exitRecord env opts (some (runningRecord env opts)) none, ?_, rfl, ?_, ?_, ?_⟩
  · rw [htr]
    simp
  · simp [exitRecord]
  · simp [exitRecord, exitCodeText]
  · rw [htr]
    simp

/-- Witness for C10: a concrete run whose process is signal-killed. -/
theorem null_exit_code_records_failure_witness :
    ∃ m, (writesOf (runTrace sampleEnvBash sampleOpts
        ⟨[], ProcEnding.exited none⟩)).getLast? = some m ∧
      m.initScriptRan = some true ∧
      m.initScriptStatus = some InitStatus.failed ∧
      m.initScriptError = some "Exit code: null" ∧
      completionsOf (runTrace sampleEnvBash sampleOpts ⟨[], ProcEnding.exited none⟩) =
        [(false, some none, none)] :=
  null_exit_code_records_failure sampleEnvBash sampleOpts [] ⟨"/bin/bash", []⟩
    (by decide) (by decide) (by decide)

@[simp]
lemma isTerminalStatus_runningRecord (env : Env) (opts : InitScriptOptions) :
    isTerminalStatus (runningRecord env opts).initScriptStatus = false := rfl

@[simp]
lemma isTerminalStatus_exitRecord (env : Env) (opts : InitScriptOptions)
    (s : Option WorktreeMetadata) (code : Option Int) :
    isTerminalStatus (exitRecord env opts s code).initScriptStatus = true := by
  by_cases hc : code = some 0 <;> simp [exitRecord, isTerminalStatus, hc]

@[simp]
lemma isTerminalStatus_errorRecord (env : Env) (opts : InitScriptOptions)
    (s : Option WorktreeMetadata) (message : String) :
    isTerminalStatus (errorRecord env opts s message).initScriptStatus = true := rfl

@[simp]
lemma isTerminalStatus_preflightRecord (env : Env) (opts : InitScriptOptions) :
    isTerminalStatus (preflightFailureRecord env opts).initScriptStatus = true := rfl

/-- Claim C8: every record the runner writes satisfies the invariant —
`initScriptRan` is `true` exactly when the status is terminal (`success` or
`failed`), and `initScriptError` is present only when the status is
`failed`. -/
theorem written_records_invariant
    (env : Env) (opts : InitScriptOptions) (proc : ProcBehavior) :
    ∀ m ∈ writesOf (runTrace env opts proc),
      (m.initScriptRan = some true ↔ isTerminalStatus m.initScriptStatus = true) ∧
      (m.initScriptError.isSome = true → m.initScriptStatus = some InitStatus.failed) := by
  intro m hm
  rcases runTrace_cases env opts proc with h | h | ⟨_, h⟩ | ⟨sc, hsc, h⟩
  · rw [h] at hm
    simp at hm
  · rw [h] at hm
    simp at hm
  · rw [h] at hm
    simp at hm
    subst hm
    simp [preflightFailureRecord, isTerminalStatus]
  · rw [h, spawnPhase_eq] at hm
    cases hp : proc.ending with
    | exited code =>
        rw [hp] at hm
        simp at hm
        rcases hm with hm | hm <;> subst hm
        · simp [runningRecord, isTerminalStatus]
        · by_cases hc : code = some 0 <;>
            simp [exitRecord, isTerminalStatus, hc]
    | errored message =>
        rw [hp] at hm
        simp at hm
        rcases hm with hm | hm <;> subst hm
        · simp [runningRecord, isTerminalStatus]
        · simp [errorRecord, isTerminalStatus]

/-- Witness for C8 at the running record written in a concrete run. -/
theorem written_records_invariant_witness :
    ((runningRecord sampleEnvBash sampleOpts).initScriptRan = some true ↔
      isTerminalStatus (runningRecord sampleEnvBash sampleOpts).initScriptStatus = true) ∧
    ((runningRecord sampleEnvBash sampleOpts).initScriptError.isSome = true →
      (runningRecord sampleEnvBash sampleOpts).initScriptStatus =
        some InitStatus.failed) :=
  written_records_invariant sampleEnvBash sampleOpts sampleProcOk
    (runningRecord sampleEnvBash sampleOpts) (by decide)

/-- Claim C5: in an invocation that reaches the spawn phase, the running
metadata write happens before any output event; exactly one terminal
metadata write and exactly one completion event occur in the whole trace,
and both lie strictly after the process-end marker, never before it. -/
theorem running_write_precedes_outputs_single_terminal_after_end
    (env : Env) (opts : InitScriptOptions) (proc : ProcBehavior) (sc : ShellCommand)
    (hscript : env.fsExists (getInitScriptPath opts.projectPath) = true)
    (hgate : hasInitScriptRun env.store = false)
    (hsh : getShellCommand env = some sc) :
    (∃ u v, runTrace env opts proc =
        u ++ Action.writeMeta (runningRecord env opts) :: v ∧
        (runningRecord env opts).initScriptStatus = some InitStatus.running ∧
        outputEmitsOf u = []) ∧
    (∃ w x, runTrace env opts proc = w ++ Action.procEnd :: x ∧
        terminalWritesOf w = [] ∧ completionsOf w = [] ∧
        (terminalWritesOf x).length = 1 ∧ (completionsOf x).length = 1) ∧
    (terminalWritesOf (runTrace env opts proc)).length = 1 ∧
    (completionsOf (runTrace env opts proc)).length = 1 := by
  have htr := runTrace_spawn env opts proc sc hscript hgate hsh
  rw [spawnPhase_eq] at htr
  refine ⟨⟨[Action.readMeta, Action.readMeta],
    [ Action.emit (Event.initStarted opts.projectPath opts.worktreePath opts.branch)
    , Action.spawnProcess sc.shell (sc.args ++ [getInitScriptPath opts.projectPath])
        opts.worktreePath (spawnEnvAdditions opts) ] ++
    (proc.outputs.map fun o =>
      Action.emit (Event.initOutput opts.projectPath opts.branch o.1 o.2)) ++
    [Action.procEnd] ++ endingActions env opts (some (runningRecord env opts)) proc.ending,
    ?_, rfl, rfl⟩,
    ⟨[ Action.readMeta, Action.readMeta
     , Action.writeMeta (runningRecord env opts)
     , Action.emit (Event.initStarted opts.projectPath opts.worktreePath opts.branch)
     , Action.spawnProcess sc.shell (sc.args ++ [getInitScriptPath opts.projectPath])
         opts.worktreePath (spawnEnvAdditions opts) ] ++
     (proc.outputs.map fun o =>
       Action.emit (Event.initOutput opts.projectPath opts.branch o.1 o.2)),
     endingActions env opts (some (runningRecord env opts)) proc.ending,
     ?_, ?_, ?_, ?_, ?_⟩, ?_, ?_⟩
  · rw [htr]
    simp
  · rw [htr]
    cases proc.ending <;> simp
  · simp [terminalWritesOf, writesOf_append, writesOf_outputActs]
  · simp [completionsOf_append]
  · cases proc.ending <;> simp [terminalWritesOf]
  · cases proc.ending <;> simp
  · rw [htr]
    cases proc.ending <;>
      simp [terminalWritesOf, writesOf_append, writesOf_outputActs]
  · rw [htr]
    cases proc.ending <;> simp

/-- Witness for C5 at a concrete run reaching the spawn phase. -/
theorem running_write_precedes_outputs_single_terminal_after_end_witness :
    (∃ u v, runTrace sampleEnvBash sampleOpts sampleProcOk =
        u ++ Action.writeMeta (runningRecord sampleEnvBash sampleOpts) :: v ∧
        (runningRecord sampleEnvBash sampleOpts).initScriptStatus =
          some InitStatus.running ∧
        outputEmitsOf u = []) ∧
    (∃ w x, runTrace sampleEnvBash sampleOpts sampleProcOk =
        w ++ Action.procEnd :: x ∧
        terminalWritesOf w = [] ∧ completionsOf w = [] ∧
        (terminalWritesOf x).length = 1 ∧ (completionsOf x).length = 1) ∧
    (terminalWritesOf (runTrace sampleEnvBash sampleOpts sampleProcOk)).length = 1 ∧
    (completionsOf (runTrace sampleEnvBash sampleOpts sampleProcOk)).length = 1 :=
  running_write_precedes_outputs_single_terminal_after_end sampleEnvBash sampleOpts
    sampleProcOk ⟨"/bin/bash", []⟩ (by decide) (by decide) (by decide)

/-- Claim C2 as stated is false on the code: with a stored record carrying
`pr = "123"` and an earlier `createdAt`, the pre-flight no-shell failure
write — built without reading the store — drops `pr` and overwrites
`createdAt` with the current time. -/
theorem preflight_write_drops_pr_and_createdAt :
    ¬ (∀ m ∈ writesOf (runTrace sampleEnvNoShell sampleOpts sampleProcOk),
        m.pr = some "123" ∧ m.createdAt = some "2024-01-01T00:00:00.000Z") := by
  decide

/-- Claim C2 amended: for a pre-existing record with a `pr` field and a
non-empty `createdAt`, every write of an invocation in which a shell is
resolvable — the running write and both terminal writes — preserves `pr`
and `createdAt`; the pre-flight no-shell failure write is excluded, since it
does not read the store. -/
theorem writes_preserve_pr_and_createdAt_when_shell_resolved
    (env : Env) (opts : InitScriptOptions) (proc : ProcBehavior) (p c : String)
    (hpr : metaPr env.store = some p)
    (hca : metaCreatedAt env.store = some c)
    (hc : c ≠ "")
    (hsh : (getShellCommand env).isSome = true) :
    ∀ m ∈ writesOf (runTrace env opts proc), m.pr = some p ∧ m.createdAt = some c := by
  intro m hm
  rcases runTrace_cases env opts proc with h | h | ⟨hn, h⟩ | ⟨sc, hsc, h⟩
  · rw [h] at hm
    simp at hm
  · rw [h] at hm
    simp at hm
  · rw [hn] at hsh
    simp at hsh
  · have hrunpr : (runningRecord env opts).pr = some p := by
      simp [runningRecord, hpr]
    have hrunca : (runningRecord env opts).createdAt = some c := by
      simp [runningRecord, hca, jsOrElse, hc]
    rw [h, spawnPhase_eq] at hm
    cases hp : proc.ending with
    | exited code =>
        rw [hp] at hm
        simp at hm
        rcases hm with hm | hm <;> subst hm
        · exact ⟨hrunpr, hrunca⟩
        · constructor
          · simp [exitRecord, metaPr, hrunpr]
          · simp [exitRecord, metaCreatedAt, hrunca, jsOrElse, hc]
    | errored message =>
        rw [hp] at hm
        simp at hm
        rcases hm with hm | hm <;> subst hm
        · exact ⟨hrunpr, hrunca⟩
        · constructor
          · simp [errorRecord, metaPr, hrunpr]
          · simp [errorRecord, metaCreatedAt, hrunca, jsOrElse, hc]

/-- Witness for the amended C2 at the running write of a concrete run. -/
theorem writes_preserve_pr_and_createdAt_when_shell_resolved_witness :
    (runningRecord sampleEnvBash sampleOpts).pr = some "123" ∧
    (runningRecord sampleEnvBash sampleOpts).createdAt =
      some "2024-01-01T00:00:00.000Z" :=
  writes_preserve_pr_and_createdAt_when_shell_resolved sampleEnvBash sampleOpts
    sampleProcOk "123" "2024-01-01T00:00:00.000Z" (by decide) (by decide)
    (by decide) (by decide) (runningRecord sampleEnvBash sampleOpts) (by decide)

end InitScript
